import Mathlib

/-!
Shallow embedding of the RedTeam_Linux_Agent safety pipeline:
`safety/monitor.py` (SafetyMonitor), `tools/tool_executor.py` (ToolExecutor),
`tools/output_parser.py` (OutputParser), `env/real_linux_env.py` (RealLinuxEnv)
and `env/advanced_env.py` (AdvancedKillChainEnv).

Python floats used for wall-clock timestamps, alert levels and rewards are
modelled as rationals; Python `None`-able values as `Option`; Python dicts as
insertion-ordered association lists.  Subprocess execution is modelled by an
explicit outcome oracle (`ProcOutcome`), since the code only branches on the
outcome of `subprocess.run` (completion with a return code, timeout, missing
binary, other exception).
-/

/-- Python's `pat in s` substring test: does `pat` occur at the head of `l`? -/
def matchesAt (pat l : List Char) : Bool :=
  match pat, l with
  | [], _ => true
  | _ :: _, [] => false
  | p :: ps, c :: cs => p == c && matchesAt ps cs

/-- Python's `pat in s` substring test: does `pat` occur anywhere in `l`? -/
def subOccurs (pat : List Char) : List Char → Bool
  | [] => matchesAt pat []
  | l@(_ :: tl) => matchesAt pat l || subOccurs pat tl

/-- Python's `pat in s` on strings. -/
def substrOf (pat s : String) : Bool := subOccurs pat.toList s.toList

/-- ASCII whitespace as matched by Python's regex `\s` and `str.strip`. -/
def isWsChar (c : Char) : Bool :=
  c == ' ' || c == '\t' || c == '\n' || c == '\r' || c == '\x0b' || c == '\x0c'

/-- Python `str.strip()`. -/
def stripStr (s : String) : String :=
  String.mk (((s.toList.dropWhile isWsChar).reverse.dropWhile isWsChar).reverse)

/-- Python `str.lower()` (ASCII case folding suffices for this repository). -/
def toLowerStr (s : String) : String := String.mk (s.toList.map Char.toLower)

/-- Decimal value of a run of digit characters. -/
def digitsToNat (ds : List Char) : Nat :=
  ds.foldl (fun a c => a * 10 + (c.toNat - 48)) 0

/-- Insertion into a Python dict modelled as an insertion-ordered assoc list:
an existing key keeps its position and gets the new value, a new key is
appended. -/
def dictInsert {κ ν : Type} [DecidableEq κ] (k : κ) (v : ν)
    (d : List (κ × ν)) : List (κ × ν) :=
  if d.any (fun p => p.1 = k) then
    d.map (fun p => if p.1 = k then (k, v) else p)
  else d ++ [(k, v)]

/-- Dict lookup (first binding of the key). -/
def dictLookup {κ ν : Type} [DecidableEq κ] (k : κ) : List (κ × ν) → Option ν
  | [] => none
  | p :: tl => if p.1 = k then some p.2 else dictLookup k tl

/-! ## SafetyMonitor (`safety/monitor.py`) -/

/-- The safety configuration loaded from `safety/whitelist.json`; fields hold
the effective values (`config.get` defaults already applied). -/
structure SafetyConfig where
  allowed_targets : List String
  allowed_ip_ranges : List String
  allowed_ports : List Nat
  max_actions_per_minute : Nat
  max_actions_per_episode : Nat
  blocked_commands : List String
  log_all_commands : Bool
  command_timeout_seconds : Nat
deriving DecidableEq

/-- One audit-log entry written by `SafetyMonitor.record_action`. -/
structure AuditRecord where
  action : String
  target : String
  success : Bool
deriving DecidableEq

/-- Mutable state of a `SafetyMonitor` instance. -/
structure MonitorState where
  action_timestamps : List ℚ
  episode_action_count : Nat
  kill_switch_active : Bool
  audit_log : List AuditRecord
deriving DecidableEq

/-- `SafetyMonitor.check_rate_limit`: prune the sliding window, then test the
per-minute and per-episode limits.  Returns the updated state and the verdict
(`true` = action allowed). -/
def check_rate_limit (cfg : SafetyConfig) (st : MonitorState) (now : ℚ) :
    MonitorState × Bool :=
  let pruned := st.action_timestamps.filter (fun ts => now - ts < 60)
  let st1 := { st with action_timestamps := pruned }
  if pruned.length ≥ cfg.max_actions_per_minute then (st1, false)
  else if st1.episode_action_count ≥ cfg.max_actions_per_episode then (st1, false)
  else (st1, true)

/-- `SafetyMonitor.record_action`: append a timestamp, bump the episode
counter, and (when `log_all_commands`) append an audit record. -/
def record_action (cfg : SafetyConfig) (st : MonitorState) (now : ℚ)
    (action target : String) (success : Bool) : MonitorState :=
  { st with
    action_timestamps := st.action_timestamps ++ [now]
    episode_action_count := st.episode_action_count + 1
    audit_log :=
      if cfg.log_all_commands then st.audit_log ++ [⟨action, target, success⟩]
      else st.audit_log }

/-- The fixed `dangerous_patterns` list in `SafetyMonitor.sanitize_command`
(braces of the fork bomb written as escapes). -/
def dangerous_patterns : List String :=
  ["rm -rf /", "mkfs", "dd if=/dev/zero", ":()\x7b :|:& \x7d;:",
   "> /dev/sda", "chmod -R 777 /"]

/-- `SafetyMonitor.sanitize_command`: `none` = blocked.  The two Python
for-loops with early `return None` are the two `any` tests, in order. -/
def sanitize_command (cfg : SafetyConfig) (command : String) : Option String :=
  if cfg.blocked_commands.any (fun b => substrOf b command) then none
  else if dangerous_patterns.any (fun p => substrOf p command) then none
  else some command

/-- `SafetyMonitor.activate_kill_switch` (the reason is only logged). -/
def activate_kill_switch (st : MonitorState) (reason : String) : MonitorState :=
  let _ := reason
  { st with kill_switch_active := true }

/-- `SafetyMonitor.is_kill_switch_active`. -/
def is_kill_switch_active (st : MonitorState) : Bool := st.kill_switch_active

/-- `SafetyMonitor.reset_episode`. -/
def reset_episode (st : MonitorState) : MonitorState :=
  { st with episode_action_count := 0 }

/-- `SafetyMonitor.validate_port`. -/
def validate_port (cfg : SafetyConfig) (port : Nat) : Bool :=
  port ∈ cfg.allowed_ports

/-! ## IP parsing (`ipaddress` as used by `SafetyMonitor.validate_target_ip`)

The repository's whitelist (`allowed_targets`, `allowed_ip_ranges`) and all
targets are IPv4, so `ipaddress.ip_address` / `ipaddress.ip_network` are
modelled for IPv4 dotted-quad literals: a malformed (or non-IPv4) literal is a
`ValueError`. -/

/-- Python `str.split(sep)` for a one-character separator (structural, so it
reduces in the kernel, unlike `String.splitOn`). -/
def splitOnChar (sep : Char) : List Char → List (List Char)
  | [] => [[]]
  | c :: tl =>
    let r := splitOnChar sep tl
    if c == sep then [] :: r
    else
      match r with
      | [] => [[c]]
      | h :: t => (c :: h) :: t

/-- One dotted-quad octet as parsed by `ipaddress`: 1-3 ASCII digits, no
leading zero, value at most 255. -/
def parseOctet (cs : List Char) : Option Nat :=
  if cs = [] then none
  else if ¬ cs.all Char.isDigit then none
  else if 3 < cs.length then none
  else if 1 < cs.length ∧ cs.headI = '0' then none
  else if digitsToNat cs ≤ 255 then some (digitsToNat cs) else none

/-- `ipaddress.ip_address` on an IPv4 literal, as the 32-bit numeric value;
`none` models `ValueError`. -/
def parseIPv4 (s : String) : Option Nat :=
  match splitOnChar '.' s.toList with
  | [a, b, c, d] => do
    let a ← parseOctet a
    let b ← parseOctet b
    let c ← parseOctet c
    let d ← parseOctet d
    some (((a * 256 + b) * 256 + c) * 256 + d)
  | _ => none

/-- `ipaddress.ip_network` (strict, the default): either a bare address
(prefix length 32) or `addr/prefixlen` with all host bits zero; `none` models
`ValueError`. -/
def parseNetwork (s : String) : Option (Nat × Nat) :=
  match splitOnChar '/' s.toList with
  | [a] => (parseIPv4 (String.mk a)).map (fun v => (v, 32))
  | [a, p] => do
    let v ← parseIPv4 (String.mk a)
    if p = [] ∨ ¬ p.all Char.isDigit then none
    else
      let plen := digitsToNat p
      if plen ≤ 32 then
        if v % 2 ^ (32 - plen) = 0 then some (v, plen) else none
      else none
  | _ => none

/-- `target in network` for an IPv4 network given as (base, prefix length):
the network address is at most `target`, which is at most the broadcast
address. -/
def netContains (target base plen : Nat) : Bool :=
  base ≤ target ∧ target < base + 2 ^ (32 - plen)

/-- The range loop of `validate_target_ip`: parse each configured range in
order and test membership.  `none` models a `ValueError` escaping from
`ip_network` (caught by the surrounding `except`, so the whole validation
returns false). -/
def check_ranges (target : Nat) : List String → Option Bool
  | [] => some false
  | r :: rest =>
    match parseNetwork r with
    | none => none
    | some (base, plen) =>
      if netContains target base plen then some true
      else check_ranges target rest

/-- `SafetyMonitor.validate_target_ip`: parse the literal, accept if it is in
the explicit `allowed_targets` list (string membership) or inside an allowed
range; a `ValueError` anywhere yields false. -/
def validate_target_ip (cfg : SafetyConfig) (target_ip : String) : Bool :=
  match parseIPv4 target_ip with
  | none => false
  | some t =>
    if target_ip ∈ cfg.allowed_targets then true
    else
      match check_ranges t cfg.allowed_ip_ranges with
      | some b => b
      | none => false

/-- Does the parsed target hit one configured range string?  (The loop body of
`validate_target_ip`, for a single range.) -/
def rangeHit (t : Nat) (r : String) : Bool :=
  match parseNetwork r with
  | some bp => netContains t bp.1 bp.2
  | none => false

/-- A concrete whitelist used as test input by witnesses, in the shape of the
repository's `safety/whitelist.json`. -/
def sampleConfig : SafetyConfig :=
  { allowed_targets := ["172.20.0.10", "172.20.0.11", "127.0.0.1"]
    allowed_ip_ranges := ["10.0.0.0/8"]
    allowed_ports := [22, 2222, 80, 8080]
    max_actions_per_minute := 30
    max_actions_per_episode := 100
    blocked_commands := ["rm -rf", "shutdown"]
    log_all_commands := true
    command_timeout_seconds := 30 }

/-! ## ToolExecutor (`tools/tool_executor.py`)

Each public operation threads the shared `SafetyMonitor` state.  The outcome
of `subprocess.run` is an oracle argument; `spawned` in the result records
whether a target-facing process was actually started (the kill-switch,
rate-limit and sanitization refusals, the simulated SSH path, and the
missing-binary case never start one). -/

/-- Outcome of a `subprocess.run` call: normal completion, `TimeoutExpired`,
`FileNotFoundError` (binary missing), or another exception (`str(e)` kept). -/
inductive ProcOutcome where
  | completed (returncode : Int) (stdout stderr : String)
  | timedOut
  | fileNotFound (msg : String)
  | otherError (msg : String)
deriving DecidableEq

/-- Result of a `ToolExecutor` operation: the updated monitor state, the
`(success, output)` pair the Python method returns, and whether a subprocess
was spawned. -/
structure ExecResult where
  monitor : MonitorState
  success : Bool
  output : String
  spawned : Bool
deriving DecidableEq

/-- `ToolExecutor.execute_nmap`.  Note that `FileNotFoundError` lands in the
generic `except Exception` branch: it records a failed action and returns
`(False, str(e))`. -/
def execute_nmap (cfg : SafetyConfig) (st : MonitorState) (now : ℚ)
    (target scan_type : String) (proc : ProcOutcome) : ExecResult :=
  if is_kill_switch_active st then ⟨st, false, "Kill switch active", false⟩
  else
    let rl := check_rate_limit cfg st now
    let st1 := rl.1
    if ¬ rl.2 then ⟨st1, false, "Rate limit exceeded", false⟩
    else
      let command := "nmap " ++ scan_type ++ " -Pn --host-timeout 10s " ++ target
      match sanitize_command cfg command with
      | none => ⟨st1, false, "Command blocked by safety controls", false⟩
      | some _ =>
        match proc with
        | .completed rc out err =>
          let success := rc == 0
          let output := if success then out else err
          ⟨record_action cfg st1 now ("nmap " ++ scan_type) target success,
            success, output, true⟩
        | .timedOut =>
          ⟨record_action cfg st1 now ("nmap " ++ scan_type) target false, false,
            "Timeout after " ++ toString cfg.command_timeout_seconds ++ "s", true⟩
        | .fileNotFound msg =>
          ⟨record_action cfg st1 now ("nmap " ++ scan_type) target false, false,
            msg, false⟩
        | .otherError msg =>
          ⟨record_action cfg st1 now ("nmap " ++ scan_type) target false, false,
            msg, true⟩

/-- `ToolExecutor.execute_hydra`.  A missing binary (`FileNotFoundError`) is
the dedicated fallback branch: it records a successful simulated action and
returns a `[SIMULATED]` output.  The wordlist default is the temporary
common-password file. -/
def execute_hydra (cfg : SafetyConfig) (st : MonitorState) (now : ℚ)
    (target : String) (port : Nat) (username : String)
    (wordlist : Option String) (proc : ProcOutcome) : ExecResult :=
  if is_kill_switch_active st then ⟨st, false, "Kill switch active", false⟩
  else
    let rl := check_rate_limit cfg st now
    let st1 := rl.1
    if ¬ rl.2 then ⟨st1, false, "Rate limit exceeded", false⟩
    else if ¬ validate_port cfg port then
      ⟨st1, false, "Port " ++ toString port ++ " not in whitelist", false⟩
    else
      let wl := wordlist.getD "/tmp/pentest_wordlist.txt"
      let command := "hydra -l " ++ username ++ " -P " ++ wl ++
        " -t 4 -w 10 ssh://" ++ target ++ ":" ++ toString port
      match sanitize_command cfg command with
      | none => ⟨st1, false, "Command blocked by safety controls", false⟩
      | some _ =>
        match proc with
        | .completed _ out err =>
          let output := out ++ err
          let success := substrOf "password:" (toLowerStr output) ||
            substrOf "valid password found" (toLowerStr output)
          ⟨record_action cfg st1 now "hydra SSH" target success,
            success, output, true⟩
        | .timedOut =>
          ⟨record_action cfg st1 now "hydra SSH" target false, false,
            "Timeout after " ++ toString cfg.command_timeout_seconds ++ "s", true⟩
        | .fileNotFound _ =>
          ⟨record_action cfg st1 now "hydra SSH (simulated)" target true, true,
            "[SIMULATED] Hydra not installed. Assuming password found: " ++
              username ++ ":password123", false⟩
        | .otherError msg =>
          ⟨record_action cfg st1 now "hydra SSH" target false, false, msg, true⟩

/-- The fixed `simulated_outputs` table of `execute_ssh_command`, in insertion
order (Python dict iteration order). -/
def simulated_outputs (username : String) : List (String × String) :=
  [("whoami", username),
   ("id", "uid=1000(" ++ username ++ ") gid=1000(" ++ username ++
     ") groups=1000(" ++ username ++ ")"),
   ("uname -a", "Linux vulnerable 5.4.0-42-generic #46-Ubuntu SMP x86_64 GNU/Linux"),
   ("sudo -l", "User " ++ username ++
     " may run the following commands:\n    (ALL) NOPASSWD: /usr/bin/vim"),
   ("cat /etc/passwd",
     "root:x:0:0:root:/root:/bin/bash\nadmin:x:1000:1000::/home/admin:/bin/bash"),
   ("ps aux", "USER       PID %CPU %MEM    VSZ   RSS TTY      STAT START   TIME COMMAND\nroot         1  0.0  0.1  12345  6789 ?        Ss   10:00   0:01 /sbin/init")]

/-- `ToolExecutor.execute_ssh_command`: fully simulated, no subprocess.  The
first table entry whose key is a substring of the command supplies the
output; otherwise a generic `[SIMULATED]` response.  Both record a successful
action. -/
def execute_ssh_command (cfg : SafetyConfig) (st : MonitorState) (now : ℚ)
    (target command username password : String) (port : Nat) : ExecResult :=
  let _ := password
  let _ := port
  if is_kill_switch_active st then ⟨st, false, "Kill switch active", false⟩
  else
    let rl := check_rate_limit cfg st now
    let st1 := rl.1
    if ¬ rl.2 then ⟨st1, false, "Rate limit exceeded", false⟩
    else
      match sanitize_command cfg command with
      | none => ⟨st1, false, "Command blocked by safety controls", false⟩
      | some _ =>
        match (simulated_outputs username).find? (fun p => substrOf p.1 command) with
        | some p =>
          ⟨record_action cfg st1 now ("SSH: " ++ command) target true, true,
            p.2, false⟩
        | none =>
          ⟨record_action cfg st1 now ("SSH: " ++ command) target true, true,
            "[SIMULATED] Command executed: " ++ command, false⟩

/-- Python `str.split()` (split on whitespace runs, dropping empty pieces). -/
def splitWs (s : String) : List String :=
  ((splitOnChar ' ' (s.toList.map (fun c => if isWsChar c then ' ' else c))).filter
    (fun l => l ≠ [])).map String.mk

/-- The generic-command whitelist of `execute_generic_command`. -/
def allowed_generic_commands : List String :=
  ["whoami", "id", "pwd", "ls", "cat", "echo", "ps"]

/-- `ToolExecutor.execute_generic_command`.  The base command is the first
whitespace-separated token (Python raises `IndexError` on a non-empty
all-whitespace command; that path is modelled as the empty base).  Every
exception of the subprocess (including a timeout, since only a generic
`except Exception` is present) records a failure and returns `str(e)`. -/
def execute_generic_command (cfg : SafetyConfig) (st : MonitorState) (now : ℚ)
    (command : String) (proc : ProcOutcome) : ExecResult :=
  if is_kill_switch_active st then ⟨st, false, "Kill switch active", false⟩
  else
    let rl := check_rate_limit cfg st now
    let st1 := rl.1
    if ¬ rl.2 then ⟨st1, false, "Rate limit exceeded", false⟩
    else
      match sanitize_command cfg command with
      | none => ⟨st1, false, "Command blocked by safety controls", false⟩
      | some _ =>
        let cmd_base := if command = "" then "" else (splitWs command).headI
        if cmd_base ∉ allowed_generic_commands then
          ⟨st1, false, "Command " ++ "'" ++ cmd_base ++ "'" ++ " not in whitelist",
            false⟩
        else
          match proc with
          | .completed rc out err =>
            let success := rc == 0
            let output := if success then out else err
            ⟨record_action cfg st1 now command "localhost" success,
              success, output, true⟩
          | .timedOut =>
            ⟨record_action cfg st1 now command "localhost" false, false,
              "Command timed out after 5 seconds", true⟩
          | .fileNotFound msg =>
            ⟨record_action cfg st1 now command "localhost" false, false, msg, false⟩
          | .otherError msg =>
            ⟨record_action cfg st1 now command "localhost" false, false, msg, true⟩

/-! ## OutputParser (`tools/output_parser.py`)

The regular expressions of the parser are embedded as direct scanners over
`List Char`.  For each pattern the greedy quantifiers are implemented as
maximal runs; for these particular patterns regex backtracking can never
succeed where the maximal run fails (every `\d+`/`\s+`/`\S+` is followed by a
token its own character class cannot start), so the scanners agree with
`re.finditer` / `re.search`. -/

/-- One match attempt of `(\d+)/(tcp|udp)\s+open\s+(\S+)\s*(.*)?` at the head
of the input.  Returns the captured (port, protocol, service, stripped
version) and the rest of the input after the match.  The final `\s*` is
greedy across newlines and `(.*)` then runs to the end of the line, exactly
as in `re` without `DOTALL`. -/
def matchPortEntry (l : List Char) : Option ((Nat × String × String × String) × List Char) :=
  let ds := l.takeWhile Char.isDigit
  let r0 := l.dropWhile Char.isDigit
  if ds = [] then none
  else
    match r0 with
    | '/' :: r1 =>
      let proto? : Option (String × List Char) :=
        if r1.take 3 = ['t', 'c', 'p'] then some ("tcp", r1.drop 3)
        else if r1.take 3 = ['u', 'd', 'p'] then some ("udp", r1.drop 3)
        else none
      match proto? with
      | none => none
      | some (proto, r2) =>
        let ws1 := r2.takeWhile isWsChar
        let r3 := r2.dropWhile isWsChar
        if ws1 = [] then none
        else if r3.take 4 = ['o', 'p', 'e', 'n'] then
          let r4 := r3.drop 4
          let ws2 := r4.takeWhile isWsChar
          let r5 := r4.dropWhile isWsChar
          if ws2 = [] then none
          else
            let svc := r5.takeWhile (fun c => !(isWsChar c))
            let r6 := r5.dropWhile (fun c => !(isWsChar c))
            if svc = [] then none
            else
              let r7 := r6.dropWhile isWsChar
              let ver := r7.takeWhile (fun c => !(c == '\n'))
              let r8 := r7.dropWhile (fun c => !(c == '\n'))
              some ((digitsToNat ds, proto, String.mk svc,
                stripStr (String.mk ver)), r8)
        else none
    | _ => none

/-- `re.finditer` driver for `matchPortEntry`: scan left to right, resuming
after each match.  Fuel is the input length; every step consumes at least one
character. -/
def scanPortsAux : Nat → List Char → List (Nat × String × String × String)
  | 0, _ => []
  | _, [] => []
  | fuel + 1, l@(_ :: tl) =>
    match matchPortEntry l with
    | some (e, rest) => e :: scanPortsAux fuel rest
    | none => scanPortsAux fuel tl

/-- All matches of the nmap port pattern in the output. -/
def scanPorts (l : List Char) : List (Nat × String × String × String) :=
  scanPortsAux l.length l

/-- The semantics of a trailing `\s*(.+)` with the group stripped: greedily
skip whitespace; if anything is left the group runs to the end of the line,
otherwise regex backtracking can still place a single non-newline whitespace
character in the group, which strips to the empty string. -/
def wsStarDotPlusStripped (r1 : List Char) : Option String :=
  let w := r1.takeWhile isWsChar
  let rest := r1.dropWhile isWsChar
  if rest ≠ [] then some (stripStr (String.mk (rest.takeWhile (fun c => c ≠ '\n'))))
  else if w.any (fun c => c ≠ '\n') then some ""
  else none

/-- One match attempt of `OS details:\s*(.+)` at the head of the input
(the stripped group is returned). -/
def matchOsDetails (l : List Char) : Option String :=
  if l.take 11 = "OS details:".toList then
    wsStarDotPlusStripped (l.drop 11)
  else none

/-- `re.search` driver for `matchOsDetails`. -/
def searchOsDetails : List Char → Option String
  | [] => none
  | l@(_ :: tl) =>
    match matchOsDetails l with
    | some s => some s
    | none => searchOsDetails tl

/-- Tail `(\d+)\s+ports?\s+scanned` of the scanned-ports pattern, matched at
the head of the input. -/
def matchPortsScannedTail (l : List Char) : Option Nat :=
  let ds := l.takeWhile Char.isDigit
  let r0 := l.dropWhile Char.isDigit
  if ds = [] then none
  else
    let ws := r0.takeWhile isWsChar
    let r1 := r0.dropWhile isWsChar
    if ws = [] then none
    else if r1.take 4 = "port".toList then
      let r2 := r1.drop 4
      let r3 := if r2.take 1 = ['s'] then r2.drop 1 else r2
      let ws2 := r3.takeWhile isWsChar
      let r4 := r3.dropWhile isWsChar
      if ws2 = [] then none
      else if r4.take 7 = "scanned".toList then some (digitsToNat ds)
      else none
    else none

/-- Lazy `.*?` before the scanned-ports tail: the first position from which
the tail matches. -/
def searchPortsScannedTail : List Char → Option Nat
  | [] => none
  | l@(_ :: tl) =>
    match matchPortsScannedTail l with
    | some n => some n
    | none => searchPortsScannedTail tl

/-- One match attempt of `Nmap scan report for.*?(\d+)\s+ports?\s+scanned`
(with `DOTALL`) at the head of the input. -/
def matchScanReport (l : List Char) : Option Nat :=
  if l.take 20 = "Nmap scan report for".toList then
    searchPortsScannedTail (l.drop 20)
  else none

/-- `re.search` driver for `matchScanReport`. -/
def searchScanReport : List Char → Option Nat
  | [] => none
  | l@(_ :: tl) =>
    match matchScanReport l with
    | some n => some n
    | none => searchScanReport tl

/-- Service record stored in `parsed["services"][port]`. -/
structure ServiceInfo where
  protocol : String
  service : String
  version : String
deriving DecidableEq

/-- Result dict of `OutputParser.parse_nmap_output`. -/
structure NmapParsed where
  open_ports : List Nat
  services : List (Nat × ServiceInfo)
  os_guess : Option String
  total_ports_scanned : Nat
deriving DecidableEq

/-- `OutputParser.parse_nmap_output`. -/
def parse_nmap_output (output : String) : NmapParsed :=
  let entries := scanPorts output.toList
  let folded := entries.foldl
    (fun (acc : List Nat × List (Nat × ServiceInfo)) e =>
      (acc.1 ++ [e.1], dictInsert e.1 ⟨e.2.1, e.2.2.1, e.2.2.2⟩ acc.2))
    ([], [])
  { open_ports := folded.1
    services := folded.2
    os_guess := searchOsDetails output.toList
    total_ports_scanned := (searchScanReport output.toList).getD 0 }

/-- One match attempt of `login:\s*(\S+)\s+password:\s*(\S+)` at the head of
the input; returns the (username, password) capture and the rest after the
match. -/
def matchCredEntry (l : List Char) : Option ((String × String) × List Char) :=
  if l.take 6 = "login:".toList then
    let r1 := (l.drop 6).dropWhile isWsChar
    let user := r1.takeWhile (fun c => !(isWsChar c))
    let r2 := r1.dropWhile (fun c => !(isWsChar c))
    if user = [] then none
    else
      let ws := r2.takeWhile isWsChar
      let r3 := r2.dropWhile isWsChar
      if ws = [] then none
      else if r3.take 9 = "password:".toList then
        let r4 := (r3.drop 9).dropWhile isWsChar
        let pw := r4.takeWhile (fun c => !(isWsChar c))
        let r5 := r4.dropWhile (fun c => !(isWsChar c))
        if pw = [] then none
        else some ((String.mk user, String.mk pw), r5)
      else none
  else none

/-- `re.finditer` driver for `matchCredEntry` (fuel = input length). -/
def scanCredsAux : Nat → List Char → List (String × String)
  | 0, _ => []
  | _, [] => []
  | fuel + 1, l@(_ :: tl) =>
    match matchCredEntry l with
    | some (e, rest) => e :: scanCredsAux fuel rest
    | none => scanCredsAux fuel tl

/-- All matches of the hydra credential pattern. -/
def scanCreds (l : List Char) : List (String × String) :=
  scanCredsAux l.length l

/-- One match attempt of `(\d+)\s+passwords?\s+tested` at the head of the
input. -/
def matchAttempts (l : List Char) : Option Nat :=
  let ds := l.takeWhile Char.isDigit
  let r0 := l.dropWhile Char.isDigit
  if ds = [] then none
  else
    let ws := r0.takeWhile isWsChar
    let r1 := r0.dropWhile isWsChar
    if ws = [] then none
    else if r1.take 8 = "password".toList then
      let r2 := r1.drop 8
      let r3 := if r2.take 1 = ['s'] then r2.drop 1 else r2
      let ws2 := r3.takeWhile isWsChar
      let r4 := r3.dropWhile isWsChar
      if ws2 = [] then none
      else if r4.take 6 = "tested".toList then some (digitsToNat ds)
      else none
    else none

/-- `re.search` driver for `matchAttempts`. -/
def searchAttempts : List Char → Option Nat
  | [] => none
  | l@(_ :: tl) =>
    match matchAttempts l with
    | some n => some n
    | none => searchAttempts tl

/-- Result dict of `OutputParser.parse_hydra_output`. -/
structure HydraParsed where
  credentials_found : List (String × String)
  attempts : Nat
  success : Bool
deriving DecidableEq

/-- `OutputParser.parse_hydra_output` (`success` is set by the credential
loop, so it is true iff at least one credential matched). -/
def parse_hydra_output (output : String) : HydraParsed :=
  let creds := scanCreds output.toList
  { credentials_found := creds
    attempts := (searchAttempts output.toList).getD 0
    success := creds ≠ [] }

/-- One match attempt of `\(ALL\)\s+NOPASSWD:\s*(.+)` at the head of the
input (the stripped group is returned). -/
def matchSudoCommands (l : List Char) : Option String :=
  if l.take 5 = "(ALL)".toList then
    let r1 := l.drop 5
    let ws := r1.takeWhile isWsChar
    let r2 := r1.dropWhile isWsChar
    if ws = [] then none
    else if r2.take 9 = "NOPASSWD:".toList then
      wsStarDotPlusStripped (r2.drop 9)
    else none
  else none

/-- `re.search` driver for `matchSudoCommands`. -/
def searchSudoCommands : List Char → Option String
  | [] => none
  | l@(_ :: tl) =>
    match matchSudoCommands l with
    | some s => some s
    | none => searchSudoCommands tl

/-- The `indicators` dict of `OutputParser.parse_ssh_output` (absent keys are
`none`/`false`). -/
structure SshParsed where
  command : String
  output : String
  privilege : Option String
  sudo_nopasswd : Bool
  sudo_commands : Option String
  suid_binaries : Option (List String)
  flag_found : Bool
deriving DecidableEq

/-- Python `"x".startswith(p)`. -/
def startsWithStr (p s : String) : Bool := matchesAt p.toList s.toList

/-- `OutputParser.parse_ssh_output`. -/
def parse_ssh_output (output command : String) : SshParsed :=
  { command := command
    output := output
    privilege :=
      if substrOf "uid=0(root)" output then some "root"
      else if substrOf "uid=" output then some "user"
      else none
    sudo_nopasswd := substrOf "NOPASSWD" output
    sudo_commands :=
      if substrOf "NOPASSWD" output then searchSudoCommands output.toList
      else none
    suid_binaries :=
      if startsWithStr "find" command ∧ substrOf "-perm" command then
        some (((splitOnChar '\n' output.toList).map
          (fun l => stripStr (String.mk l))).filter (fun s => s ≠ ""))
      else none
    flag_found :=
      substrOf "flag" (toLowerStr output) || substrOf "ctf\x7b" (toLowerStr output) }

/-- The keyword list of `OutputParser.summarize_output`. -/
def summarize_keywords : List String :=
  ["open", "found", "success", "password", "root", "admin", "flag", "error", "failed"]

/-- Python `s[:n]`. -/
def strTake (s : String) (n : Nat) : String := String.mk (s.toList.take n)

/-- Character count (`len` in Python). -/
def strLen (s : String) : Nat := s.toList.length

/-- `OutputParser.summarize_output`. -/
def summarize_output (output : String) (max_length : Nat) : String :=
  if strLen output ≤ max_length then output
  else
    let lines := (splitOnChar '\n' output.toList).map String.mk
    let important := (lines.filter
      (fun line => summarize_keywords.any
        (fun kw => substrOf kw (toLowerStr line)))).map stripStr
    let summary := String.intercalate "\n" (important.take 5)
    let summary :=
      if strLen summary > max_length then strTake summary max_length ++ "..."
      else summary
    if summary ≠ "" then summary else strTake output max_length ++ "..."

/-! ## RealLinuxEnv (`env/real_linux_env.py`) -/

/-- The fixed action catalogue `RealLinuxEnv.actions` (index = action id). -/
def actions : List String :=
  ["nmap -sV target",
   "enum4linux target",
   "gobuster dir -u target",
   "cat /etc/passwd",
   "ps aux",
   "hydra -l admin -P rockyou",
   "exploit_buffer_overflow",
   "exploit_cve_2025_1234",
   "bash -i >& /dev/tcp/IP/PORT 0>&1",
   "python -c " ++ "'" ++ "import socket..." ++ "'",
   "sudo -l",
   "find / -perm -4000",
   "cat /root/flag.txt",
   "linpeas.sh",
   "dirty_cow_exploit",
   "echo " ++ "'" ++ "ssh-rsa ..." ++ "'" ++ " >> .ssh/authorized_keys",
   "nc -lvnp 4444",
   "whoami",
   "history",
   "wait"]

/-- Mission state of `RealLinuxEnv` (`alert_level` is a float in the code: it
grows in steps of 0.5). -/
structure EnvState where
  access_level : Nat
  ports_found : Nat
  vuln_found : Nat
  shell_active : Nat
  alert_level : ℚ
  steps : Nat
  discovered_ports : List Nat
  discovered_services : List (Nat × ServiceInfo)
  credentials : List (String × String)
  current_user : Option String
  current_password : Option String
deriving DecidableEq

/-- The state installed by `RealLinuxEnv.reset` (and `__init__`). -/
def initEnvState : EnvState :=
  { access_level := 0, ports_found := 0, vuln_found := 0, shell_active := 0
    alert_level := 0, steps := 0, discovered_ports := []
    discovered_services := [], credentials := []
    current_user := none, current_password := none }

/-- Python truthiness of an optional string (`None` and `""` are falsy). -/
def optTruthy : Option String → Bool
  | none => false
  | some s => s ≠ ""

/-- `RealLinuxEnv._execute_action`: dispatch on the action id, calling the
tool executor for actions 0 and 5, the simulated SSH path for the
post-exploitation actions, and canned strings otherwise.  Returns the updated
monitor state and the `(success, output)` pair. -/
def execute_action (cfg : SafetyConfig) (target : String) (ms : MonitorState)
    (es : EnvState) (now : ℚ) (action_id : Nat) (proc : ProcOutcome) :
    MonitorState × Bool × String :=
  if action_id = 0 then
    let r := execute_nmap cfg ms now target "-sV -p-" proc
    (r.monitor, r.success, r.output)
  else if action_id = 1 then (ms, true, "[SIMULATED] enum4linux not implemented yet")
  else if action_id = 2 then (ms, true, "[SIMULATED] gobuster not implemented yet")
  else if action_id = 5 then
    let r := execute_hydra cfg ms now target 2222 "admin" none proc
    (r.monitor, r.success, r.output)
  else if action_id = 6 ∨ action_id = 7 then
    (ms, true, "[SIMULATED] Exploit framework not implemented yet")
  else if action_id = 8 ∨ action_id = 9 then
    if 1 ≤ es.access_level then (ms, true, "Reverse shell connection established")
    else (ms, false, "No access to establish shell")
  else if action_id ∈ [3, 4, 10, 11, 12, 17, 18] then
    if optTruthy es.current_user ∧ optTruthy es.current_password then
      let r := execute_ssh_command cfg ms now target (actions.getD action_id "")
        (es.current_user.getD "") (es.current_password.getD "") 2222
      (r.monitor, r.success, r.output)
    else (ms, false, "No credentials available for SSH")
  else if action_id = 19 then (ms, true, "Waiting...")
  else (ms, true, "[SIMULATED] Action " ++ toString action_id ++ " not fully implemented")

/-- `RealLinuxEnv._calculate_reward`, evaluated on the pre-update state. -/
def calculate_reward (es : EnvState) (action_id : Nat) (success : Bool)
    (output : String) : ℚ :=
  if ¬ success then -5
  else if action_id = 0 then
    let parsed := parse_nmap_output output
    let num : ℚ := parsed.open_ports.length
    if 0 < parsed.open_ports.length ∧ es.ports_found = 0 then 10 + num * 2 else 0
  else if action_id = 5 then
    let parsed := parse_hydra_output output
    if parsed.success ∧ es.credentials = [] then 50 else 0
  else if action_id = 8 ∨ action_id = 9 then
    if es.shell_active = 0 then 30 else 0
  else if action_id = 10 then
    if substrOf "NOPASSWD" output then 20 else 0
  else if action_id = 12 then
    if substrOf "flag" (toLowerStr output) || substrOf "ctf\x7b" (toLowerStr output)
    then 100 else 0
  else 0

/-- `RealLinuxEnv._update_state`. -/
def update_state (es : EnvState) (action_id : Nat) (success : Bool)
    (output : String) : EnvState :=
  if ¬ success then { es with alert_level := es.alert_level + mkRat 1 2 }
  else if action_id = 0 then
    let parsed := parse_nmap_output output
    if parsed.open_ports ≠ [] then
      { es with ports_found := 1
                discovered_ports := parsed.open_ports
                discovered_services := parsed.services }
    else es
  else if action_id = 5 then
    let parsed := parse_hydra_output output
    match parsed.credentials_found with
    | [] => es
    | cred :: _ =>
      { es with credentials := dictInsert cred.1 cred.2 es.credentials
                current_user := some cred.1
                current_password := some cred.2
                access_level := 1 }
  else if action_id = 8 ∨ action_id = 9 then
    if 1 ≤ es.access_level then { es with shell_active := 1 } else es
  else if action_id = 10 then
    let parsed := parse_ssh_output output (actions.getD action_id "")
    if parsed.sudo_nopasswd then { es with vuln_found := 1 } else es
  else if action_id = 14 then
    if es.vuln_found = 1 then { es with access_level := 2 } else es
  else es

/-- `RealLinuxEnv._get_obs`: the 9-component observation vector. -/
def get_obs (es : EnvState) : List ℚ :=
  let ssh_open : ℚ :=
    if 22 ∈ es.discovered_ports ∨ 2222 ∈ es.discovered_ports then 1 else 0
  let http_open : ℚ :=
    if [80, 443, 8080].any (fun p => p ∈ es.discovered_ports) then 1 else 0
  let creds_found : ℚ := if es.credentials ≠ [] then 1 else 0
  let privilege : ℚ := (es.access_level : ℚ) / 2
  [(es.access_level : ℚ), (es.ports_found : ℚ), (es.vuln_found : ℚ),
   (es.shell_active : ℚ), es.alert_level, ssh_open, http_open, creds_found,
   privilege]

/-- `RealLinuxEnv.max_steps`. -/
def real_max_steps : Nat := 50

/-- Result of one `RealLinuxEnv.step` call.  The kill-switch refusal fills
only `info_error`; a normal step fills `info_output` (possibly overwritten by
a termination message) and `info_success`. -/
structure StepResult where
  monitor : MonitorState
  env : EnvState
  obs : List ℚ
  reward : ℚ
  done : Bool
  truncated : Bool
  info_error : Option String
  info_output : Option String
  info_success : Option Bool
deriving DecidableEq

/-- `RealLinuxEnv.step`: kill-switch gate, then execute, summarize, score,
update state, and test the termination conditions in source order (root-flag
capture, then detection, then truncation). -/
def step (cfg : SafetyConfig) (target : String) (ms : MonitorState)
    (es : EnvState) (now : ℚ) (action_id : Nat) (proc : ProcOutcome) : StepResult :=
  if is_kill_switch_active ms then
    { monitor := ms, env := es, obs := get_obs es, reward := -100, done := true
      truncated := false, info_error := some "Kill switch active"
      info_output := none, info_success := none }
  else
    let es1 := { es with steps := es.steps + 1 }
    let exec := execute_action cfg target ms es1 now action_id proc
    let ms1 := exec.1
    let success := exec.2.1
    let output := exec.2.2
    let info0 := summarize_output output 200
    let reward1 : ℚ := -1 + calculate_reward es1 action_id success output
    let es2 := update_state es1 action_id success output
    let flag_captured :=
      es2.access_level = 2 && substrOf "flag" (toLowerStr output)
    let reward2 := if flag_captured then reward1 + 500 else reward1
    let done1 := if flag_captured then true else false
    let info1 := if flag_captured then "ROOT FLAG CAPTURED!" else info0
    let detected : Bool := 2 ≤ es2.alert_level
    let reward3 := if detected then reward2 - 50 else reward2
    let done2 := if detected then true else done1
    let info2 := if detected then "DETECTED! Mission failed." else info1
    let trunc : Bool := real_max_steps ≤ es2.steps
    { monitor := ms1, env := es2, obs := get_obs es2, reward := reward3
      done := done2, truncated := trunc, info_error := none
      info_output := some info2, info_success := some success }

/-! ## AdvancedKillChainEnv (`env/advanced_env.py`)

`random.random()` draws are the `roll` oracle (a rational in `[0, 1)`), and
the count-based intrinsic bonus `1/sqrt(visit_count)` is the `intrinsic`
oracle; neither feeds back into the state or the termination logic. -/

/-- `AdvancedKillChainEnv.os_types`. -/
def os_types : List String := ["Linux", "Windows", "macOS"]

/-- `AdvancedKillChainEnv.actions` (index = action id). -/
def advActions : List String :=
  ["Autonomous_Swarm_Recon", "MultiCloud_Shadow_API_Enum", "IPv6_Ghost_Scan",
   "Botnet_Distributed_Scan", "Deepfake_Voice_Phishing",
   "ZeroDay_LLM_Injection", "Quantum_VPN_Decryption", "Biometric_Spoofing_Auth",
   "NFC_Clone_Attack", "AI_Model_Poisoning",
   "PowerShell_Reflective_Load", "eBPF_Stealth_Shell", "MacOS_TCC_Bypass",
   "Container_Escape_K8s", "WASM_Heap_Overflow",
   "UEFI_Bootkit_Implant", "Systemd_Service_Masquerade", "MacOS_Kext_Injection",
   "Hypervisor_Level_Persistence", "Hardware_Firmware_Backdoor",
   "AD_Kerberos_Ticket_Forge", "Linux_Kernel_Race_Condition",
   "ZeroDay_Kernel_PrivEsc", "Windows_Hello_Bypass", "Secure_Enclave_Extraction",
   "Exfil_Vector_Embeddings_DB", "Exfil_Executive_Voice_Prints",
   "Quantum_Ransomware_Crypt", "Deepfake_CEO_Broadcast", "Blockchain_Log_Poisoning"]

/-- Internal state of `AdvancedKillChainEnv` (`vulns_known` is initialised to
five zero bits and never written by `step`, so it is omitted). -/
structure AdvState where
  os_type : Nat
  kill_chain_phase : Nat
  stealth_meter : ℚ
  access_level : Nat
  business_value_found : ℚ
  current_step : Nat
deriving DecidableEq

/-- Result of one `AdvancedKillChainEnv.step` call. -/
structure AdvStepResult where
  state : AdvState
  reward : ℚ
  done : Bool
  truncated : Bool
  info_output : String
deriving DecidableEq

/-- The kill-chain logic engine of `AdvancedKillChainEnv.step` (the chain of
phase-dependent branches, after the OS-mismatch early returns).  Returns the
updated state, the reward delta of the branch, the done flag it sets, and the
info text. -/
def advLogic (s : AdvState) (action_id : Nat) (action_name : String)
    (roll : ℚ) : AdvState × ℚ × Bool × String :=
  if action_id ≤ 4 then
    if s.kill_chain_phase = 0 then
      let s := { s with kill_chain_phase := 1 }
      if substrOf "Botnet" action_name then
        ({ s with stealth_meter := s.stealth_meter - 20 }, 1, false,
          "Recon successful but noisy (Botnet).")
      else (s, 1, false, "Stealth recon successful.")
    else (s, 0, false, "Recon already done.")
  else if 5 ≤ action_id ∧ action_id ≤ 9 then
    if 1 ≤ s.kill_chain_phase ∧ s.access_level = 0 then
      if mkRat 2 5 < roll then
        ({ s with access_level := 1, kill_chain_phase := 2 }, 10, false,
          "Initial Access Gained! (+10)")
      else
        ({ s with stealth_meter := s.stealth_meter - 10 }, 0, false,
          "Exploit failed.")
    else (s, -5, false, "Cannot exploit without recon or already have access.")
  else if 10 ≤ action_id ∧ action_id ≤ 19 then
    if 1 ≤ s.access_level then
      if 15 ≤ action_id then (s, 5, false, "Persistence established.")
      else (s, 0, false, "Command executed.")
    else (s, -5, false, "No access to execute commands.")
  else if 20 ≤ action_id ∧ action_id ≤ 24 then
    if s.access_level = 1 then
      if mkRat 1 2 < roll then
        ({ s with access_level := 2 }, 50, false,
          "Privilege Escalation Successful! (ROOT/ADMIN) (+50)")
      else
        ({ s with stealth_meter := s.stealth_meter - 15 }, 0, false,
          "PrivEsc failed.")
    else (s, 0, false, "Need user access first.")
  else if 25 ≤ action_id ∧ action_id ≤ 29 then
    if 1 ≤ s.access_level then
      if substrOf "Vector_Embeddings" action_name then
        if s.access_level = 2 then
          ({ s with business_value_found := s.business_value_found + 100 },
            100, true, "CRITICAL: Vector Embeddings DB Exfiltrated! (+100)")
        else (s, -5, false, "Need Root/Admin to access Database.")
      else if substrOf "Voice_Prints" action_name then
        ({ s with business_value_found := s.business_value_found + 30 },
          30, false, "Executive Voice Prints exfiltrated.")
      else if substrOf "Ransomware" action_name then
        ({ s with stealth_meter := 0 }, 50, true, "Quantum Ransomware deployed.")
      else (s, 0, false, "")
    else (s, 0, false, "No access to exfiltrate.")
  else (s, 0, false, "")

/-- `AdvancedKillChainEnv.max_steps`. -/
def adv_max_steps : Nat := 100

/-- `AdvancedKillChainEnv.step`: bump the step counter, add the time penalty
and the intrinsic bonus, run the OS-mismatch early returns, the kill-chain
logic, the stealth-floor detection check, and the truncation check. -/
def advStep (s : AdvState) (action_id : Nat) (intrinsic roll : ℚ) : AdvStepResult :=
  let s0 := { s with current_step := s.current_step + 1 }
  let action_name := advActions.getD action_id ""
  let current_os := os_types.getD s0.os_type ""
  let reward0 : ℚ := mkRat (-1) 10 + intrinsic
  if substrOf "PowerShell" action_name && current_os ≠ "Windows" then
    ⟨s0, reward0 - 5, false, false, "FAIL: PowerShell not available on " ++ current_os⟩
  else if substrOf "eBPF" action_name && current_os = "Windows" then
    ⟨s0, reward0 - 5, false, false, "FAIL: eBPF not available on " ++ current_os⟩
  else
    let lg := advLogic s0 action_id action_name roll
    let s1 := lg.1
    let reward1 := reward0 + lg.2.1
    let done1 := lg.2.2.1
    let info1 := lg.2.2.2
    let detected : Bool := s1.stealth_meter ≤ 0
    let reward2 := if detected then reward1 - 20 else reward1
    let done2 := if detected then true else done1
    let info2 := if detected then "DETECTED! Mission Failed. (-20)" else info1
    let trunc : Bool := adv_max_steps ≤ s1.current_step
    let reward3 := if trunc then reward2 - 5 else reward2
    ⟨s1, reward3, done2, trunc, info2⟩

/-! ## Call sequences over the shared monitor (for the kill-switch claim) -/

/-- Combined system state: the process-wide `SafetyMonitor` state plus the
environment's mission state. -/
structure SysState where
  monitor : MonitorState
  env : EnvState
deriving DecidableEq

/-- One call of the public API surface: the four `ToolExecutor` operations,
an environment step or reset, and the `SafetyMonitor` mutators. -/
inductive Op where
  | opNmap (now : ℚ) (scan_type : String) (proc : ProcOutcome)
  | opHydra (now : ℚ) (port : Nat) (username : String) (wordlist : Option String)
      (proc : ProcOutcome)
  | opSsh (now : ℚ) (command username password : String) (port : Nat)
  | opGeneric (now : ℚ) (command : String) (proc : ProcOutcome)
  | opEnvStep (now : ℚ) (action_id : Nat) (proc : ProcOutcome)
  | opEnvReset
  | opRecordAction (now : ℚ) (action target : String) (success : Bool)
  | opCheckRateLimit (now : ℚ)
  | opResetEpisode
  | opActivateKillSwitch (reason : String)
deriving DecidableEq

/-- Effect of one API call on the combined state. -/
def runOp (cfg : SafetyConfig) (target : String) (st : SysState) : Op → SysState
  | .opNmap now scan proc =>
    { st with monitor := (execute_nmap cfg st.monitor now target scan proc).monitor }
  | .opHydra now port user wl proc =>
    { st with monitor :=
        (execute_hydra cfg st.monitor now target port user wl proc).monitor }
  | .opSsh now c u p port =>
    { st with monitor :=
        (execute_ssh_command cfg st.monitor now target c u p port).monitor }
  | .opGeneric now c proc =>
    { st with monitor := (execute_generic_command cfg st.monitor now c proc).monitor }
  | .opEnvStep now id proc =>
    let r := step cfg target st.monitor st.env now id proc
    ⟨r.monitor, r.env⟩
  | .opEnvReset => ⟨reset_episode st.monitor, initEnvState⟩
  | .opRecordAction now a t s =>
    { st with monitor := record_action cfg st.monitor now a t s }
  | .opCheckRateLimit now =>
    { st with monitor := (check_rate_limit cfg st.monitor now).1 }
  | .opResetEpisode => { st with monitor := reset_episode st.monitor }
  | .opActivateKillSwitch reason =>
    { st with monitor := activate_kill_switch st.monitor reason }

/-- Effect of a sequence of API calls. -/
def runOps (cfg : SafetyConfig) (target : String) (st : SysState)
    (ops : List Op) : SysState :=
  ops.foldl (runOp cfg target) st

/-- A monitor state with the kill switch already activated (test input for
witnesses). -/
def ksMonitor : MonitorState :=
  { action_timestamps := [], episode_action_count := 0
    kill_switch_active := true, audit_log := [] }

/-- A fresh monitor state (test input for witnesses). -/
def freshMonitor : MonitorState :=
  { action_timestamps := [], episode_action_count := 0
    kill_switch_active := false, audit_log := [] }

/-- Combined state with the kill switch active (test input). -/
def ksSys : SysState := ⟨ksMonitor, initEnvState⟩

/-- A sample later call sequence (test input for the kill-switch witness). -/
def sampleOps : List Op :=
  [Op.opEnvReset,
   Op.opNmap 1 "-sV" (ProcOutcome.completed 0 "22/tcp open ssh" ""),
   Op.opResetEpisode,
   Op.opEnvStep 2 5 (ProcOutcome.fileNotFound "hydra missing"),
   Op.opCheckRateLimit 3]

/-- A mission state one failed action away from detection (test input). -/
def nearDetectionEnvState : EnvState := { initEnvState with alert_level := mkRat 3 2 }

/-- A mission state already at the detection floor (test input). -/
def detectedEnvState : EnvState := { initEnvState with alert_level := 2 }

/-- An advanced-environment state with user access in the exfiltration phase
(test input). -/
def advReadyState : AdvState :=
  { os_type := 0, kill_chain_phase := 2, stealth_meter := 10, access_level := 1
    business_value_found := 0, current_step := 0 }

/-- All gate checks of `execute_nmap` pass (kill switch clear, rate limit
admitted, command not sanitized away). -/
def nmapChecksPass (cfg : SafetyConfig) (st : MonitorState) (now : ℚ)
    (target scan_type : String) : Bool :=
  !st.kill_switch_active && (check_rate_limit cfg st now).2 &&
    (sanitize_command cfg
      ("nmap " ++ scan_type ++ " -Pn --host-timeout 10s " ++ target)).isSome

/-- All gate checks of `execute_hydra` pass (kill switch clear, rate limit
admitted, port whitelisted, command not sanitized away). -/
def hydraChecksPass (cfg : SafetyConfig) (st : MonitorState) (now : ℚ)
    (target : String) (port : Nat) (username : String)
    (wordlist : Option String) : Bool :=
  !st.kill_switch_active && (check_rate_limit cfg st now).2 &&
    validate_port cfg port &&
    (sanitize_command cfg
      ("hydra -l " ++ username ++ " -P " ++ wordlist.getD "/tmp/pentest_wordlist.txt" ++
        " -t 4 -w 10 ssh://" ++ target ++ ":" ++ toString port)).isSome

/-- All gate checks of `execute_ssh_command` pass. -/
def sshChecksPass (cfg : SafetyConfig) (st : MonitorState) (now : ℚ)
    (command : String) : Bool :=
  !st.kill_switch_active && (check_rate_limit cfg st now).2 &&
    (sanitize_command cfg command).isSome

/-- Key list of a dict modelled as an assoc list. -/
def dictKeys {κ ν : Type} (d : List (κ × ν)) : List κ := d.map Prod.fst

/-- A mission state after a first scan found port 22 (test input). -/
def scannedEnvState : EnvState :=
  { initEnvState with
    ports_found := 1
    discovered_ports := [22]
    discovered_services := [(22, ⟨"tcp", "ssh", "OpenSSH 7.6p1"⟩)] }

/-- A mission state with root access already gained (test input). -/
def rootedEnvState : EnvState :=
  { initEnvState with
    access_level := 2
    vuln_found := 1
    credentials := [("admin", "password123")]
    current_user := some "admin"
    current_password := some "password123" }

/-! ## Theorems -/

/-- C4: `check_rate_limit` first removes every timestamp older than 60 seconds
from the window, then returns false iff the remaining window size is at least
`max_actions_per_minute` or the episode action counter is at least
`max_actions_per_episode`, and true otherwise; it never appends a timestamp
(the new window is a sublist of the old), never increments the episode
counter, and never appends an audit record. -/
theorem C4_check_rate_limit_spec (cfg : SafetyConfig) (st : MonitorState) (now : ℚ) :
    (check_rate_limit cfg st now).1.action_timestamps
        = st.action_timestamps.filter (fun ts => now - ts < 60) ∧
    ((check_rate_limit cfg st now).2 = false ↔
      cfg.max_actions_per_minute
          ≤ (st.action_timestamps.filter (fun ts => now - ts < 60)).length ∨
      cfg.max_actions_per_episode ≤ st.episode_action_count) ∧
    (check_rate_limit cfg st now).1.episode_action_count = st.episode_action_count ∧
    (check_rate_limit cfg st now).1.audit_log = st.audit_log ∧
    (check_rate_limit cfg st now).1.action_timestamps.Sublist st.action_timestamps ∧
    (check_rate_limit cfg st now).1.kill_switch_active = st.kill_switch_active := by
  simp only [check_rate_limit]
  split_ifs with h1 h2
  · exact ⟨rfl, by simp [h1], rfl, rfl, List.filter_sublist _, rfl⟩
  · exact ⟨rfl, by simp [h2], rfl, rfl, List.filter_sublist _, rfl⟩
  · refine ⟨rfl, ?_, rfl, rfl, List.filter_sublist _, rfl⟩
    simp only [ge_iff_le, not_le] at h1 h2
    simp [not_le.mpr h1, not_le.mpr h2]

/-- C5: `sanitize_command` returns a blocked result (`none`) iff the command
contains a configured blocked substring or one of the fixed dangerous
patterns; every other command is returned unchanged. -/
theorem C5_sanitize_command_spec (cfg : SafetyConfig) (cmd : String) :
    (sanitize_command cfg cmd = none ↔
      (∃ b ∈ cfg.blocked_commands, substrOf b cmd = true) ∨
      (∃ p ∈ dangerous_patterns, substrOf p cmd = true)) ∧
    (sanitize_command cfg cmd = none ∨ sanitize_command cfg cmd = some cmd) := by
  simp only [sanitize_command]
  split_ifs with h1 h2
  · simp only [List.any_eq_true] at h1
    exact ⟨by simp [h1], Or.inl rfl⟩
  · simp only [List.any_eq_true] at h2
    exact ⟨by simp [h2], Or.inl rfl⟩
  · simp only [List.any_eq_true, not_exists, not_and] at h1 h2
    refine ⟨?_, Or.inr rfl⟩
    constructor
    · intro h; cases h
    · rintro (⟨b, hb, hsub⟩ | ⟨p, hp, hsub⟩)
      · exact absurd hsub (by simpa using h1 b hb)
      · exact absurd hsub (by simpa using h2 p hp)

/-- Unfolding lemma: a single range string hits iff it parses and the parsed
network contains the target. -/
theorem rangeHit_iff (t : Nat) (r : String) :
    rangeHit t r = true ↔
      ∃ b p, parseNetwork r = some (b, p) ∧ netContains t b p = true := by
  unfold rangeHit
  cases hpr : parseNetwork r with
  | none => simp
  | some bp =>
    cases bp with
    | mk b p =>
      simp only [hpr, Option.some.injEq, Prod.mk.injEq]
      constructor
      · intro h; exact ⟨b, p, ⟨rfl, rfl⟩, h⟩
      · rintro ⟨b', p', ⟨rfl, rfl⟩, hc⟩
        exact hc

/-- When every configured range parses, the range loop of
`validate_target_ip` never escapes with a `ValueError` and computes the
disjunction of the per-range membership tests. -/
theorem check_ranges_eq_any (t : Nat) (rs : List String)
    (h : ∀ r ∈ rs, (parseNetwork r).isSome) :
    check_ranges t rs = some (rs.any (rangeHit t)) := by
  induction rs with
  | nil => simp [check_ranges]
  | cons r rest ih =>
    have hr := h r (List.mem_cons_self r rest)
    cases hpr : parseNetwork r with
    | none => rw [hpr] at hr; cases hr
    | some bp =>
      have hrest : ∀ x ∈ rest, (parseNetwork x).isSome := fun x hx =>
        h x (List.mem_cons_of_mem r hx)
      cases bp with
      | mk b p =>
        by_cases hc : netContains t b p = true
        · simp [check_ranges, hpr, hc, rangeHit, List.any_cons]
        · simp only [Bool.not_eq_true] at hc
          simp [check_ranges, hpr, hc, ih hrest, rangeHit, List.any_cons]

/-- C6: with a well-formed whitelist (every configured range parses),
`validate_target_ip` returns false for every malformed literal, and for every
well-formed address it returns true iff the address is in the explicit
allow-set or inside some allowed CIDR range. -/
theorem C6_validate_target_ip_spec (cfg : SafetyConfig) (addr : String)
    (hcfg : ∀ r ∈ cfg.allowed_ip_ranges, (parseNetwork r).isSome) :
    (parseIPv4 addr = none → validate_target_ip cfg addr = false) ∧
    (∀ t, parseIPv4 addr = some t →
      (validate_target_ip cfg addr = true ↔
        addr ∈ cfg.allowed_targets ∨
        ∃ r ∈ cfg.allowed_ip_ranges, ∃ b p,
          parseNetwork r = some (b, p) ∧ netContains t b p = true)) := by
  constructor
  · intro hnone
    unfold validate_target_ip
    rw [hnone]
  · intro t ht
    by_cases hmem : addr ∈ cfg.allowed_targets
    · simp [validate_target_ip, ht, hmem]
    · simp only [validate_target_ip, ht]
      rw [if_neg hmem, check_ranges_eq_any t cfg.allowed_ip_ranges hcfg]
      simp [hmem, List.any_eq_true, rangeHit_iff]

/-- C6 witness: on the sample whitelist, `10.1.2.3` is accepted through the
`10.0.0.0/8` range. -/
theorem C6_validate_target_ip_spec_witness :
    "10.1.2.3" ∈ sampleConfig.allowed_targets ∨
    ∃ r ∈ sampleConfig.allowed_ip_ranges, ∃ b p,
      parseNetwork r = some (b, p) ∧ netContains 167838211 b p = true :=
  ((C6_validate_target_ip_spec sampleConfig "10.1.2.3" (by decide)).2
    167838211 (by decide)).mp (by decide)

/-- `check_rate_limit` never touches the kill switch. -/
theorem check_rate_limit_kill (cfg : SafetyConfig) (st : MonitorState) (now : ℚ) :
    ((check_rate_limit cfg st now).1).kill_switch_active = st.kill_switch_active := by
  simp only [check_rate_limit]
  split_ifs <;> rfl

/-- A kill-switched monitor makes `execute_nmap` refuse without spawning. -/
theorem execute_nmap_killed {cfg : SafetyConfig} {st : MonitorState} {now : ℚ}
    {target scan_type : String} {proc : ProcOutcome}
    (h : st.kill_switch_active = true) :
    execute_nmap cfg st now target scan_type proc =
      ⟨st, false, "Kill switch active", false⟩ := by
  simp [execute_nmap, is_kill_switch_active, h]

/-- A kill-switched monitor makes `execute_hydra` refuse without spawning. -/
theorem execute_hydra_killed {cfg : SafetyConfig} {st : MonitorState} {now : ℚ}
    {target : String} {port : Nat} {username : String} {wordlist : Option String}
    {proc : ProcOutcome} (h : st.kill_switch_active = true) :
    execute_hydra cfg st now target port username wordlist proc =
      ⟨st, false, "Kill switch active", false⟩ := by
  simp [execute_hydra, is_kill_switch_active, h]

/-- A kill-switched monitor makes `execute_ssh_command` refuse. -/
theorem execute_ssh_killed {cfg : SafetyConfig} {st : MonitorState} {now : ℚ}
    {target command username password : String} {port : Nat}
    (h : st.kill_switch_active = true) :
    execute_ssh_command cfg st now target command username password port =
      ⟨st, false, "Kill switch active", false⟩ := by
  simp [execute_ssh_command, is_kill_switch_active, h]

/-- A kill-switched monitor makes `execute_generic_command` refuse. -/
theorem execute_generic_killed {cfg : SafetyConfig} {st : MonitorState} {now : ℚ}
    {command : String} {proc : ProcOutcome} (h : st.kill_switch_active = true) :
    execute_generic_command cfg st now command proc =
      ⟨st, false, "Kill switch active", false⟩ := by
  simp [execute_generic_command, is_kill_switch_active, h]

/-- A kill-switched monitor makes `RealLinuxEnv.step` return the terminal
failure without touching any state. -/
theorem step_killed {cfg : SafetyConfig} {target : String} {ms : MonitorState}
    {es : EnvState} {now : ℚ} {action_id : Nat} {proc : ProcOutcome}
    (h : ms.kill_switch_active = true) :
    step cfg target ms es now action_id proc =
      ⟨ms, es, get_obs es, -100, true, false, some "Kill switch active",
        none, none⟩ := by
  simp [step, is_kill_switch_active, h]

/-- No API call ever clears an active kill switch. -/
theorem runOp_kill (cfg : SafetyConfig) (target : String) (st : SysState)
    (op : Op) (h : st.monitor.kill_switch_active = true) :
    (runOp cfg target st op).monitor.kill_switch_active = true := by
  cases op with
  | opNmap now scan proc => simp [runOp, execute_nmap_killed h, h]
  | opHydra now port user wl proc => simp [runOp, execute_hydra_killed h, h]
  | opSsh now c u p port => simp [runOp, execute_ssh_killed h, h]
  | opGeneric now c proc => simp [runOp, execute_generic_killed h, h]
  | opEnvStep now id proc => simp [runOp, step_killed h, h]
  | opEnvReset => simpa [runOp, reset_episode] using h
  | opRecordAction now a t s => simpa [runOp, record_action] using h
  | opCheckRateLimit now => simpa [runOp, check_rate_limit_kill] using h
  | opResetEpisode => simpa [runOp, reset_episode] using h
  | opActivateKillSwitch reason => simp [runOp, activate_kill_switch]

/-- An active kill switch survives every later call sequence. -/
theorem runOps_kill (cfg : SafetyConfig) (target : String) (st : SysState)
    (ops : List Op) (h : st.monitor.kill_switch_active = true) :
    (runOps cfg target st ops).monitor.kill_switch_active = true := by
  induction ops generalizing st with
  | nil => simpa [runOps] using h
  | cons op rest ih =>
    have h1 := runOp_kill cfg target st op h
    simpa [runOps, List.foldl_cons] using ih (runOp cfg target st op) h1

/-- C1: once the kill switch is active, after every sequence of later API
calls it is still active, each `ToolExecutor` public operation returns
`(False, "Kill switch active")` without spawning a subprocess, and every
`RealLinuxEnv.step` returns the terminal failure (reward -100, done) without
touching any state. -/
theorem C1_kill_switch_latches (cfg : SafetyConfig) (target : String)
    (st : SysState) (h : st.monitor.kill_switch_active = true) (ops : List Op) :
    (runOps cfg target st ops).monitor.kill_switch_active = true ∧
    (∀ now scan_type proc,
      execute_nmap cfg (runOps cfg target st ops).monitor now target scan_type proc =
        ⟨(runOps cfg target st ops).monitor, false, "Kill switch active", false⟩) ∧
    (∀ now port username wordlist proc,
      execute_hydra cfg (runOps cfg target st ops).monitor now target port
          username wordlist proc =
        ⟨(runOps cfg target st ops).monitor, false, "Kill switch active", false⟩) ∧
    (∀ now command username password port,
      execute_ssh_command cfg (runOps cfg target st ops).monitor now target
          command username password port =
        ⟨(runOps cfg target st ops).monitor, false, "Kill switch active", false⟩) ∧
    (∀ now command proc,
      execute_generic_command cfg (runOps cfg target st ops).monitor now command proc =
        ⟨(runOps cfg target st ops).monitor, false, "Kill switch active", false⟩) ∧
    (∀ now action_id proc,
      step cfg target (runOps cfg target st ops).monitor
          (runOps cfg target st ops).env now action_id proc =
        ⟨(runOps cfg target st ops).monitor, (runOps cfg target st ops).env,
          get_obs (runOps cfg target st ops).env, -100, true, false,
          some "Kill switch active", none, none⟩) := by
  have hk := runOps_kill cfg target st ops h
  exact ⟨hk,
    fun _ _ _ => execute_nmap_killed hk,
    fun _ _ _ _ _ => execute_hydra_killed hk,
    fun _ _ _ _ _ => execute_ssh_killed hk,
    fun _ _ _ => execute_generic_killed hk,
    fun _ _ _ => step_killed hk⟩

/-- C1 witness: after a concrete later call sequence on a kill-switched
state, a concrete nmap call refuses and a concrete step is terminal. -/
theorem C1_kill_switch_latches_witness :
    execute_nmap sampleConfig
        (runOps sampleConfig "172.20.0.10" ksSys sampleOps).monitor 5
        "172.20.0.10" "-sV" (ProcOutcome.completed 0 "ok" "") =
      ⟨(runOps sampleConfig "172.20.0.10" ksSys sampleOps).monitor, false,
        "Kill switch active", false⟩ ∧
    step sampleConfig "172.20.0.10"
        (runOps sampleConfig "172.20.0.10" ksSys sampleOps).monitor
        (runOps sampleConfig "172.20.0.10" ksSys sampleOps).env 6 0
        (ProcOutcome.completed 0 "" "") =
      ⟨(runOps sampleConfig "172.20.0.10" ksSys sampleOps).monitor,
        (runOps sampleConfig "172.20.0.10" ksSys sampleOps).env,
        get_obs (runOps sampleConfig "172.20.0.10" ksSys sampleOps).env,
        -100, true, false, some "Kill switch active", none, none⟩ := by
  have h := C1_kill_switch_latches sampleConfig "172.20.0.10" ksSys rfl sampleOps
  exact ⟨h.2.1 5 "-sV" (ProcOutcome.completed 0 "ok" ""),
    h.2.2.2.2.2 6 0 (ProcOutcome.completed 0 "" "")⟩

/-- C10: if the kill switch is active when `RealLinuxEnv.step` is invoked,
the call returns reward -100 with done set, and neither the monitor state nor
any mission-state field is mutated (the whole `EnvState` record — step
counter, access level, flags, alert level, discovered ports and services,
credentials, current user and password — is unchanged). -/
theorem C10_killed_step_mutates_nothing (cfg : SafetyConfig) (target : String)
    (ms : MonitorState) (es : EnvState) (now : ℚ) (action_id : Nat)
    (proc : ProcOutcome) (h : ms.kill_switch_active = true) :
    (step cfg target ms es now action_id proc).reward = -100 ∧
    (step cfg target ms es now action_id proc).done = true ∧
    (step cfg target ms es now action_id proc).env = es ∧
    (step cfg target ms es now action_id proc).monitor = ms := by
  rw [step_killed h]
  exact ⟨rfl, rfl, rfl, rfl⟩

/-- C10 witness: a concrete kill-switched step call. -/
theorem C10_killed_step_mutates_nothing_witness :
    (step sampleConfig "172.20.0.10" ksMonitor nearDetectionEnvState 7 0
        (ProcOutcome.completed 0 "22/tcp open ssh" "")).reward = -100 ∧
    (step sampleConfig "172.20.0.10" ksMonitor nearDetectionEnvState 7 0
        (ProcOutcome.completed 0 "22/tcp open ssh" "")).done = true ∧
    (step sampleConfig "172.20.0.10" ksMonitor nearDetectionEnvState 7 0
        (ProcOutcome.completed 0 "22/tcp open ssh" "")).env = nearDetectionEnvState ∧
    (step sampleConfig "172.20.0.10" ksMonitor nearDetectionEnvState 7 0
        (ProcOutcome.completed 0 "22/tcp open ssh" "")).monitor = ksMonitor :=
  C10_killed_step_mutates_nothing sampleConfig "172.20.0.10" ksMonitor
    nearDetectionEnvState 7 0 (ProcOutcome.completed 0 "22/tcp open ssh" "") rfl

/-- C8: whenever a step leaves the detection measure at or past its floor,
that same step reports termination: in `AdvancedKillChainEnv`, a step taken
from an undetected state (positive stealth meter) that ends with
`stealth_meter ≤ 0` returns done, whatever its reward; in `RealLinuxEnv`,
any step that ends with `alert_level ≥ 2` returns done. -/
theorem C8_detection_floor_terminates :
    (∀ (s : AdvState) (action_id : Nat) (intrinsic roll : ℚ),
      0 < s.stealth_meter →
      (advStep s action_id intrinsic roll).state.stealth_meter ≤ 0 →
      (advStep s action_id intrinsic roll).done = true) ∧
    (∀ (cfg : SafetyConfig) (target : String) (ms : MonitorState) (es : EnvState)
      (now : ℚ) (action_id : Nat) (proc : ProcOutcome),
      2 ≤ (step cfg target ms es now action_id proc).env.alert_level →
      (step cfg target ms es now action_id proc).done = true) := by
  constructor
  · intro s action_id intrinsic roll hpos hle
    unfold advStep at hle ⊢
    dsimp only at hle ⊢
    split_ifs at hle ⊢ <;>
      try simp only [decide_eq_true_eq, not_le, not_lt] at * <;>
      first
        | rfl
        | linarith
  · intro cfg target ms es now action_id proc halert
    unfold step at halert ⊢
    dsimp only at halert ⊢
    split_ifs at halert ⊢ <;>
      try simp only [decide_eq_true_eq, not_le, not_lt] at * <;>
      first
        | rfl
        | linarith

/-- C8 witness: the ransomware action zeroes the stealth meter and the step
is terminal; a failed shell attempt pushes the alert level to 2 and the step
is terminal. -/
theorem C8_detection_floor_terminates_witness :
    ((0 : ℚ) < advReadyState.stealth_meter ∧
      (advStep advReadyState 27 0 0).state.stealth_meter ≤ 0 ∧
      (advStep advReadyState 27 0 0).done = true) ∧
    ((2 : ℚ) ≤ (step sampleConfig "172.20.0.10" freshMonitor detectedEnvState
        1 19 (ProcOutcome.completed 0 "" "")).env.alert_level ∧
      (step sampleConfig "172.20.0.10" freshMonitor detectedEnvState
        1 19 (ProcOutcome.completed 0 "" "")).done = true) :=
  ⟨⟨by decide, by decide,
    C8_detection_floor_terminates.1 advReadyState 27 0 0 (by decide) (by decide)⟩,
   ⟨by decide,
    C8_detection_floor_terminates.2 sampleConfig "172.20.0.10" freshMonitor
      detectedEnvState 1 19 (ProcOutcome.completed 0 "" "") (by decide)⟩⟩

/-- `check_rate_limit` never touches the episode counter. -/
theorem check_rate_limit_count (cfg : SafetyConfig) (st : MonitorState) (now : ℚ) :
    ((check_rate_limit cfg st now).1).episode_action_count = st.episode_action_count := by
  simp only [check_rate_limit]
  split_ifs <;> rfl

/-- C2 counterexample: with the kill switch active, `execute_nmap` returns
without calling `record_action` at all — the episode counter stays at 0
instead of being incremented exactly once as the claim requires for every
attempted action. -/
theorem C2_counterexample_no_record_on_rejection :
    ¬ ((execute_nmap sampleConfig ksMonitor 0 "172.20.0.10" "-sV"
        (ProcOutcome.completed 0 "" "")).monitor.episode_action_count =
      ksMonitor.episode_action_count + 1) := by decide

/-- C2 amended: `record_action` is called exactly once (the episode counter
grows by one) iff the attempt passes all of the operation's gate checks; on a
kill-switch, rate-limit, port-validation or sanitization rejection it is not
called at all, and on every execution outcome past the checks (completion,
timeout, missing binary, other exception) it is called exactly once. -/
theorem C2_record_action_iff_admitted (cfg : SafetyConfig) (st : MonitorState)
    (now : ℚ) (target scan_type : String) (port : Nat)
    (username : String) (wordlist : Option String)
    (command user pw : String) (proc : ProcOutcome) :
    ((execute_nmap cfg st now target scan_type proc).monitor.episode_action_count =
      if nmapChecksPass cfg st now target scan_type then st.episode_action_count + 1
      else st.episode_action_count) ∧
    ((execute_hydra cfg st now target port username wordlist proc).monitor.episode_action_count =
      if hydraChecksPass cfg st now target port username wordlist then
        st.episode_action_count + 1
      else st.episode_action_count) ∧
    ((execute_ssh_command cfg st now target command user pw port).monitor.episode_action_count =
      if sshChecksPass cfg st now command then st.episode_action_count + 1
      else st.episode_action_count) := by
  refine ⟨?_, ?_, ?_⟩
  · unfold execute_nmap nmapChecksPass is_kill_switch_active
    cases hks : st.kill_switch_active with
    | true => simp
    | false =>
      simp only [Bool.not_false, Bool.true_and]
      cases hrl : (check_rate_limit cfg st now).2 with
      | false => simp [check_rate_limit_count]
      | true =>
        cases hsan : sanitize_command cfg
            ("nmap " ++ scan_type ++ " -Pn --host-timeout 10s " ++ target) with
        | none => simp [hsan, check_rate_limit_count]
        | some c =>
          cases proc <;>
            simp [hsan, record_action, check_rate_limit_count]
  · unfold execute_hydra hydraChecksPass is_kill_switch_active
    cases hks : st.kill_switch_active with
    | true => simp
    | false =>
      simp only [Bool.not_false, Bool.true_and]
      cases hrl : (check_rate_limit cfg st now).2 with
      | false => simp [check_rate_limit_count]
      | true =>
        cases hvp : validate_port cfg port with
        | false => simp [hvp, check_rate_limit_count]
        | true =>
          cases hsan : sanitize_command cfg
              ("hydra -l " ++ username ++ " -P " ++
                wordlist.getD "/tmp/pentest_wordlist.txt" ++
                " -t 4 -w 10 ssh://" ++ target ++ ":" ++ toString port) with
          | none => simp [hvp, hsan, check_rate_limit_count]
          | some c =>
            cases proc <;>
              simp [hvp, hsan, record_action, check_rate_limit_count]
  · unfold execute_ssh_command sshChecksPass is_kill_switch_active
    cases hks : st.kill_switch_active with
    | true => simp
    | false =>
      simp only [Bool.not_false, Bool.true_and]
      cases hrl : (check_rate_limit cfg st now).2 with
      | false => simp [check_rate_limit_count]
      | true =>
        cases hsan : sanitize_command cfg command with
        | none => simp [hsan, check_rate_limit_count]
        | some c =>
          cases hfind : (simulated_outputs user).find? (fun p => substrOf p.1 command) with
          | none => simp [hsan, hfind, record_action, check_rate_limit_count]
          | some p => simp [hsan, hfind, record_action, check_rate_limit_count]

/-- C3 counterexample: with every check passing, a missing nmap binary
(`FileNotFoundError`) makes `execute_nmap` report failure with the raw
exception text — not a success with a simulated output as the claim states
for both tools. -/
theorem C3_counterexample_nmap_missing_fails :
    (execute_nmap sampleConfig freshMonitor 0 "172.20.0.10" "-sV"
      (ProcOutcome.fileNotFound "[Errno 2] No such file or directory: nmap")).success
      = false ∧
    substrOf "[SIMULATED]"
      (execute_nmap sampleConfig freshMonitor 0 "172.20.0.10" "-sV"
        (ProcOutcome.fileNotFound "[Errno 2] No such file or directory: nmap")).output
      = false := by decide

/-- C3 amended: only `execute_hydra` degrades a missing tool binary to a
clearly marked simulated success; `execute_nmap` instead reports failure,
returning the exception text (its `FileNotFoundError` lands in the generic
exception handler). -/
theorem C3_missing_binary_behaviour (cfg : SafetyConfig) (st : MonitorState)
    (now : ℚ) (target scan_type : String) (port : Nat) (username : String)
    (wordlist : Option String) (msg : String)
    (hn : nmapChecksPass cfg st now target scan_type = true)
    (hh : hydraChecksPass cfg st now target port username wordlist = true) :
    (execute_nmap cfg st now target scan_type (ProcOutcome.fileNotFound msg)).success
      = false ∧
    (execute_nmap cfg st now target scan_type (ProcOutcome.fileNotFound msg)).output
      = msg ∧
    (execute_hydra cfg st now target port username wordlist
      (ProcOutcome.fileNotFound msg)).success = true ∧
    (execute_hydra cfg st now target port username wordlist
      (ProcOutcome.fileNotFound msg)).output =
      "[SIMULATED] Hydra not installed. Assuming password found: " ++
        username ++ ":password123" := by
  have hn' := hn
  have hh' := hh
  unfold nmapChecksPass at hn'
  unfold hydraChecksPass at hh'
  simp only [Bool.and_eq_true, Bool.not_eq_true'] at hn' hh'
  obtain ⟨⟨hks, hrl⟩, hsan⟩ := hn'
  obtain ⟨⟨⟨_, _⟩, hvp⟩, hsanh⟩ := hh'
  obtain ⟨c1, hc1⟩ := Option.isSome_iff_exists.mp hsan
  obtain ⟨c2, hc2⟩ := Option.isSome_iff_exists.mp hsanh
  refine ⟨?_, ?_, ?_, ?_⟩ <;>
    simp [execute_nmap, execute_hydra, is_kill_switch_active, hks, hrl, hvp,
      hc1, hc2]

/-- C3 witness: the amended behaviour at a concrete whitelisted target and
port. -/
theorem C3_missing_binary_behaviour_witness :
    (execute_nmap sampleConfig freshMonitor 0 "172.20.0.10" "-sV"
      (ProcOutcome.fileNotFound "nofile")).success = false ∧
    (execute_nmap sampleConfig freshMonitor 0 "172.20.0.10" "-sV"
      (ProcOutcome.fileNotFound "nofile")).output = "nofile" ∧
    (execute_hydra sampleConfig freshMonitor 0 "172.20.0.10" 2222 "admin" none
      (ProcOutcome.fileNotFound "nofile")).success = true ∧
    (execute_hydra sampleConfig freshMonitor 0 "172.20.0.10" 2222 "admin" none
      (ProcOutcome.fileNotFound "nofile")).output =
      "[SIMULATED] Hydra not installed. Assuming password found: " ++
        "admin" ++ ":password123" :=
  C3_missing_binary_behaviour sampleConfig freshMonitor 0 "172.20.0.10" "-sV"
    2222 "admin" none "nofile" (by decide) (by decide)

/-- Inserting into a dict never removes a key. -/
theorem dictKeys_dictInsert_subset {κ ν : Type} [DecidableEq κ] (k : κ) (v : ν)
    (d : List (κ × ν)) : dictKeys d ⊆ dictKeys (dictInsert k v d) := by
  unfold dictInsert dictKeys
  split_ifs with h
  · have : ((d.map (fun p => if p.1 = k then (k, v) else p)).map Prod.fst) =
        d.map Prod.fst := by
      rw [List.map_map]
      refine List.map_congr_left ?_
      intro p _
      by_cases hp : p.1 = k <;> simp [hp]
    rw [this]
    exact List.Subset.refl _
  · rw [List.map_append]
    exact List.subset_append_left _ _

/-- C7 counterexample: mission-state updates are not monotonic.  A second
successful scan replaces the discovered-port set (22 disappears), and a later
successful brute force resets the access level from root (2) back to user
(1). -/
theorem C7_counterexample_not_monotone :
    ((update_state scannedEnvState 0 true "443/tcp open https").discovered_ports
        = [443] ∧
      ¬ (22 ∈ (update_state scannedEnvState 0 true
        "443/tcp open https").discovered_ports) ∧
      22 ∈ scannedEnvState.discovered_ports) ∧
    ((update_state rootedEnvState 5 true
        "login: admin password: hunter2").access_level = 1 ∧
      rootedEnvState.access_level = 2) := by decide

/-- C7 amended: within an episode the update is monotone only in the alert
level (never decreases), the ports/vuln/shell flags (never reset), and the
credential key set (never loses a username); the access level and the
discovered port/service sets are not monotone (see the counterexample). -/
theorem C7_update_state_partial_monotonicity (es : EnvState) (action_id : Nat)
    (success : Bool) (output : String) (hp : es.ports_found ≤ 1)
    (hv : es.vuln_found ≤ 1) (hs : es.shell_active ≤ 1) :
    es.alert_level ≤ (update_state es action_id success output).alert_level ∧
    es.ports_found ≤ (update_state es action_id success output).ports_found ∧
    es.vuln_found ≤ (update_state es action_id success output).vuln_found ∧
    es.shell_active ≤ (update_state es action_id success output).shell_active ∧
    dictKeys es.credentials ⊆
      dictKeys (update_state es action_id success output).credentials := by
  have h12 : (0 : ℚ) ≤ mkRat 1 2 := by
    rw [Rat.mkRat_eq_div]
    norm_num
  unfold update_state
  dsimp only
  split_ifs
  all_goals try exact ⟨le_refl _, le_refl _, le_refl _, le_refl _, List.Subset.refl _⟩
  all_goals try exact ⟨le_refl _, hp, le_refl _, le_refl _, List.Subset.refl _⟩
  all_goals try exact ⟨le_refl _, le_refl _, le_refl _, hs, List.Subset.refl _⟩
  all_goals try exact ⟨le_refl _, le_refl _, hv, le_refl _, List.Subset.refl _⟩
  all_goals try exact ⟨by
    show es.alert_level ≤ es.alert_level + mkRat 1 2
    linarith [h12], le_refl _, le_refl _, le_refl _, List.Subset.refl _⟩
  all_goals try
    (rcases hcl : (parse_hydra_output output).credentials_found with _ | ⟨c, rest⟩ <;>
      simp only [hcl])
  all_goals try exact ⟨le_refl _, le_refl _, le_refl _, le_refl _, List.Subset.refl _⟩
  all_goals exact ⟨le_refl _, le_refl _, le_refl _, le_refl _,
    dictKeys_dictInsert_subset _ _ _⟩

/-- C7 witness: the monotone components at a concrete state and a concrete
successful brute-force update. -/
theorem C7_update_state_partial_monotonicity_witness :
    scannedEnvState.alert_level ≤
      (update_state scannedEnvState 5 true
        "login: admin password: hunter2").alert_level ∧
    scannedEnvState.ports_found ≤
      (update_state scannedEnvState 5 true
        "login: admin password: hunter2").ports_found ∧
    scannedEnvState.vuln_found ≤
      (update_state scannedEnvState 5 true
        "login: admin password: hunter2").vuln_found ∧
    scannedEnvState.shell_active ≤
      (update_state scannedEnvState 5 true
        "login: admin password: hunter2").shell_active ∧
    dictKeys scannedEnvState.credentials ⊆
      dictKeys (update_state scannedEnvState 5 true
        "login: admin password: hunter2").credentials :=
  C7_update_state_partial_monotonicity scannedEnvState 5 true
    "login: admin password: hunter2" (by decide) (by decide) (by decide)

/-- `takeWhile` passes over a prefix that wholly satisfies the predicate. -/
theorem takeWhile_append_of_all {α : Type} (p : α → Bool) (l1 l2 : List α)
    (h : l1.all p = true) :
    (l1 ++ l2).takeWhile p = l1 ++ l2.takeWhile p := by
  induction l1 with
  | nil => simp
  | cons a tl ih =>
    simp only [List.all_cons, Bool.and_eq_true] at h
    simp [List.takeWhile_cons, h.1, ih h.2]

/-- `dropWhile` drops a prefix that wholly satisfies the predicate. -/
theorem dropWhile_append_of_all {α : Type} (p : α → Bool) (l1 l2 : List α)
    (h : l1.all p = true) :
    (l1 ++ l2).dropWhile p = l2.dropWhile p := by
  induction l1 with
  | nil => simp
  | cons a tl ih =>
    simp only [List.all_cons, Bool.and_eq_true] at h
    simp [List.dropWhile_cons, h.1, ih h.2]

/-- The port scanner finds nothing in an empty input, at any fuel. -/
theorem scanPortsAux_nil (n : Nat) : scanPortsAux n [] = [] := by
  cases n <;> rfl

/-- The nmap port pattern matches an ssh service line with arbitrary nonempty
whitespace runs between the fields, consuming the whole line. -/
theorem matchPortEntry_ssh_ws (w1 w2 w3 : List Char)
    (h1 : w1 ≠ []) (h2 : w2 ≠ []) (h3 : w3 ≠ [])
    (hw1 : w1.all isWsChar = true) (hw2 : w2.all isWsChar = true)
    (hw3 : w3.all isWsChar = true) :
    matchPortEntry ('2' :: '2' :: '/' :: 't' :: 'c' :: 'p' ::
      (w1 ++ 'o' :: 'p' :: 'e' :: 'n' ::
        (w2 ++ 's' :: 's' :: 'h' ::
          (w3 ++ "OpenSSH 7.6p1".toList)))) =
      some ((22, "tcp", "ssh", "OpenSSH 7.6p1"), []) := by
  obtain ⟨c3, t3, rfl⟩ : ∃ c t, w3 = c :: t := by
    cases w3 with
    | nil => exact absurd rfl h3
    | cons c t => exact ⟨c, t, rfl⟩
  simp only [List.all_cons, Bool.and_eq_true] at hw3
  obtain ⟨hc3, ht3⟩ := hw3
  simp only [isWsChar, Bool.or_eq_true, beq_iff_eq] at hc3
  unfold matchPortEntry
  rcases hc3 with ((((rfl | rfl) | rfl) | rfl) | rfl) | rfl <;>
    simp [List.takeWhile_cons, List.dropWhile_cons, isWsChar, Char.isDigit,
      takeWhile_append_of_all, dropWhile_append_of_all, hw1, hw2, ht3,
      h1, h2, List.cons_append, stripStr, digitsToNat]

/-- A match that consumes the whole input is the only one the scan driver
reports. -/
theorem scanPorts_single (c : Char) (tl : List Char)
    (e : Nat × String × String × String)
    (h : matchPortEntry (c :: tl) = some (e, [])) :
    scanPorts (c :: tl) = [e] := by
  unfold scanPorts
  simp [List.length_cons, scanPortsAux, h, scanPortsAux_nil]

/-- C9: `parse_nmap_output` applied to `"22/tcp open ssh OpenSSH 7.6p1"`
yields `open_ports = [22]` and `services[22] = (tcp, ssh, "OpenSSH 7.6p1")`,
and the same holds with arbitrary nonempty whitespace runs between the
fields. -/
theorem C9_parse_nmap_ssh_line :
    ((parse_nmap_output "22/tcp open ssh OpenSSH 7.6p1").open_ports = [22] ∧
      dictLookup 22 (parse_nmap_output "22/tcp open ssh OpenSSH 7.6p1").services =
        some ⟨"tcp", "ssh", "OpenSSH 7.6p1"⟩) ∧
    (∀ w1 w2 w3 : List Char,
      w1 ≠ [] → w2 ≠ [] → w3 ≠ [] →
      w1.all isWsChar = true → w2.all isWsChar = true → w3.all isWsChar = true →
      (parse_nmap_output (String.mk ('2' :: '2' :: '/' :: 't' :: 'c' :: 'p' ::
          (w1 ++ 'o' :: 'p' :: 'e' :: 'n' ::
            (w2 ++ 's' :: 's' :: 'h' ::
              (w3 ++ "OpenSSH 7.6p1".toList)))))).open_ports = [22] ∧
      dictLookup 22 (parse_nmap_output (String.mk ('2' :: '2' :: '/' :: 't' :: 'c' :: 'p' ::
          (w1 ++ 'o' :: 'p' :: 'e' :: 'n' ::
            (w2 ++ 's' :: 's' :: 'h' ::
              (w3 ++ "OpenSSH 7.6p1".toList)))))).services =
        some ⟨"tcp", "ssh", "OpenSSH 7.6p1"⟩) := by
  constructor
  · exact ⟨by decide, by decide⟩
  · intro w1 w2 w3 h1 h2 h3 hw1 hw2 hw3
    have hm := matchPortEntry_ssh_ws w1 w2 w3 h1 h2 h3 hw1 hw2 hw3
    have hs := scanPorts_single _ _ _ hm
    simp at hs
    constructor <;>
      simp [parse_nmap_output, String.toList, hs, dictInsert, dictLookup]

/-- C9 witness: the whitespace-generalised clause at concrete tab, double
space and newline separators. -/
theorem C9_parse_nmap_ssh_line_witness :
    (parse_nmap_output (String.mk ('2' :: '2' :: '/' :: 't' :: 'c' :: 'p' ::
        (['\t'] ++ 'o' :: 'p' :: 'e' :: 'n' ::
          ([' ', ' '] ++ 's' :: 's' :: 'h' ::
            (['\n'] ++ "OpenSSH 7.6p1".toList)))))).open_ports = [22] ∧
    dictLookup 22 (parse_nmap_output (String.mk ('2' :: '2' :: '/' :: 't' :: 'c' :: 'p' ::
        (['\t'] ++ 'o' :: 'p' :: 'e' :: 'n' ::
          ([' ', ' '] ++ 's' :: 's' :: 'h' ::
            (['\n'] ++ "OpenSSH 7.6p1".toList)))))).services =
      some ⟨"tcp", "ssh", "OpenSSH 7.6p1"⟩ :=
  C9_parse_nmap_ssh_line.2 ['\t'] [' ', ' '] ['\n'] (by decide) (by decide)
    (by decide) (by decide) (by decide) (by decide)
